import Mathlib

/-
Shallow embedding of the low-thrust minimum-fuel trajectory core
(SpaceTelescopeRefueling): `functions.py` (element conversions, switch
function, thrust profile) and `eom.py` (the 14-dimensional state-costate
ODE right-hand side).  Floating-point arithmetic is modelled over ℝ.
-/

noncomputable section

namespace STR

/-- Modelled from the spec: `const.py` and `spacecraft_params.py` are imported by the
source (`import const as cn`, `import spacecraft_params as sc`) but are not part of the
source tree; per §6 and §9 of the design document the physical constants and spacecraft
parameters form an immutable configuration record, consumed read-only.  Fields keep the
attribute names used at the call sites (`cn.mu`, `cn.J2`, `cn.Req`, `cn.DU`, `cn.Power`,
`cn.P`, `cn.g0`, `sc.c`, `sc.si2can`, `sc.Thr`, `sc.A`, `sc.eta`, `sc.Isp`). -/
structure Config where
  mu : ℝ
  J2 : ℝ
  Req : ℝ
  DU : ℝ
  Power : ℝ
  P : ℝ
  g0 : ℝ
  c : ℝ
  si2can : ℝ
  Thr : ℝ
  A : ℝ
  eta : ℝ
  Isp : ℝ

/-- Euclidean norm of a 3-vector: `numpy.linalg.norm` applied to a length-3 array. -/
def norm3 (a : Fin 3 → ℝ) : ℝ :=
  Real.sqrt (a 0 ^ 2 + a 1 ^ 2 + a 2 ^ 2)

/-- Cross product of 3-vectors: `numpy.cross`. -/
def cross3 (a b : Fin 3 → ℝ) : Fin 3 → ℝ :=
  ![a 1 * b 2 - a 2 * b 1, a 2 * b 0 - a 0 * b 2, a 0 * b 1 - a 1 * b 0]

/-- Sample-level body of `mee2rv` (functions.py lines 48-67): position and velocity
from one set of modified equinoctial elements. -/
def mee2rv1 (cfg : Config) (p f g h k L : ℝ) : (Fin 3 → ℝ) × (Fin 3 → ℝ) :=
  let alpha2 := h ^ 2 - k ^ 2
  let tani2s := h ^ 2 + k ^ 2
  let s2 := 1 + tani2s
  let cosL := Real.cos L
  let sinL := Real.sin L
  let hk2 := 2 * h * k
  let sq := Real.sqrt (cfg.mu / p)
  let radius := p / (1 + f * cosL + g * sinL)
  (![radius * (cosL + alpha2 * cosL + hk2 * sinL) / s2,
     radius * (sinL - alpha2 * sinL + hk2 * cosL) / s2,
     2 * radius * (h * sinL - k * cosL) / s2],
   ![-sq * (sinL + alpha2 * sinL - hk2 * cosL + g - f * hk2 + alpha2 * g) / s2,
     -sq * (-cosL + alpha2 * cosL + hk2 * sinL - f + g * hk2 + alpha2 * f) / s2,
     2 * sq * (h * cosL + k * sinL + f * h + g * k) / s2])

/-- Batched `mee2rv` (functions.py lines 29-67), applied to the first six columns of a
batch of 14-component rows, as `thrust_angle` does. -/
def mee2rv (cfg : Config) (data : List (Fin 14 → ℝ)) :
    List (Fin 3 → ℝ) × List (Fin 3 → ℝ) :=
  (data.map fun x => (mee2rv1 cfg (x 0) (x 1) (x 2) (x 3) (x 4) (x 5)).1,
   data.map fun x => (mee2rv1 cfg (x 0) (x 1) (x 2) (x 3) (x 4) (x 5)).2)

/-- Embedding of `inertial2radial` (functions.py lines 100-122): rows are the unit
radial vector, the cross product of the normal and radial rows, and the unit orbital
angular momentum vector. -/
def inertial2radial (r v : Fin 3 → ℝ) : Matrix (Fin 3) (Fin 3) ℝ :=
  let hvec := cross3 r v
  let h := norm3 hvec
  let xrdl := fun i => r i / norm3 r
  let zrdl := fun i => hvec i / h
  let yrdl := cross3 zrdl xrdl
  Matrix.of ![xrdl, yrdl, zrdl]

/-- Control-influence matrix B built per sample inside `switch_function`
(functions.py lines 161-175). -/
def Bmat (x : Fin 14 → ℝ) : Matrix (Fin 7) (Fin 3) ℝ :=
  let SinL := Real.sin (x 5)
  let CosL := Real.cos (x 5)
  let q := 1 + x 1 * CosL + x 2 * SinL
  let s := 1 + x 3 ^ 2 + x 4 ^ 2
  let C1 := Real.sqrt (x 0)
  let C2 := 1 / q
  let C3 := x 3 * SinL - x 4 * CosL
  !![0, 2 * x 0 * C2 * C1, 0;
     C1 * SinL, C1 * C2 * ((q + 1) * CosL + x 1), -C1 * (x 2 / q) * C3;
     -C1 * CosL, C1 * C2 * ((q + 1) * SinL + x 2), C1 * (x 1 / q) * C3;
     0, 0, C1 * s * CosL * C2 / 2;
     0, 0, C1 * s * SinL * C2 / 2;
     0, 0, C1 * C2 * C3;
     0, 0, 0]

/-- Costate 7-vector assembled per sample inside `switch_function`
(functions.py line 176). -/
def lamVec (x : Fin 14 → ℝ) : Fin 7 → ℝ :=
  ![x 7, x 8, x 9, x 10, x 11, x 12, x 13]

/-- Per-sample `BTL` entry: `matmul(B.T, lam)` (functions.py line 177). -/
def BTL1 (x : Fin 14 → ℝ) : Fin 3 → ℝ :=
  (Bmat x).transpose.mulVec (lamVec x)

/-- Per-sample switching scalar (functions.py line 178). -/
def S1 (cfg : Config) (x : Fin 14 → ℝ) : ℝ :=
  cfg.c * cfg.si2can * norm3 (BTL1 x) / x 6 + x 13 - 1

/-- Per-sample throttle (functions.py line 179). -/
def delta1 (cfg : Config) (x : Fin 14 → ℝ) (rho : ℝ) : ℝ :=
  0.5 * (1 + Real.tanh (S1 cfg x / rho))

/-- Embedding of `switch_function` (functions.py lines 124-180).  The source loops over
the rows of the batch, each iteration touching only the row's own data; the loop is
rendered as three maps over the row list. -/
def switch_function (cfg : Config) (data : List (Fin 14 → ℝ)) (rho : ℝ) :
    List ℝ × List ℝ × List (Fin 3 → ℝ) :=
  (data.map fun x => S1 cfg x,
   data.map fun x => delta1 cfg x rho,
   data.map fun x => BTL1 x)

/-- Runtime errors the Python interpreter can raise in `thrust_angle`:
`UnboundLocalError` (a `NameError` subclass) on reading an unassigned local, and the
`ValueError` numpy raises when a multi-element boolean array is used as a truth value. -/
inductive PyErr where
  | nameError
  | valueError
deriving DecidableEq, Repr

/-- Return tuple of `thrust_angle` (functions.py line 254). -/
structure ThrustOut where
  r : List (Fin 3 → ℝ)
  v : List (Fin 3 → ℝ)
  u_inert : List (Fin 3 → ℝ)
  u_lvlh : List (Fin 3 → ℝ)
  S : List ℝ
  F : List ℝ
  Pa : List ℝ
  delta : List ℝ
  zeta : List ℝ

/-- Statements from line 206 of functions.py onward: the part of the body of
`thrust_angle` that follows the bare tuple on line 205.  It is dead code in the source
(line 205 always raises first), embedded here so the whole body is represented.  With
eclipse enabled, line 234 tests `r[0] < 0` where `r[0]` is the first sample's
3-vector; the comparison yields a three-element boolean array whose use as a branch
condition raises a `ValueError`, modelled by the error in the eclipse branch. -/
def thrust_angle_rest (cfg : Config) (data : List (Fin 14 → ℝ)) (rho : ℝ)
    (eclipse : Bool) : Except PyErr ThrustOut := do
  let Sd := switch_function cfg data rho
  let rv := mee2rv cfg data
  let r := rv.1
  let v := rv.2
  let delta := Sd.2.1
  let BTL := Sd.2.2
  let zero3 : Fin 3 → ℝ := fun _ => 0
  let outs ← (List.range data.length).mapM fun i => do
    if eclipse then
      (Except.error PyErr.valueError :
        Except PyErr (ℝ × ℝ × ℝ × (Fin 3 → ℝ) × (Fin 3 → ℝ)))
    else
      let Pai := cfg.Power
      let Thri := cfg.P * cfg.A * cfg.eta / cfg.Isp / cfg.g0
      let Fi := Thri * delta.getD i 0
      let ui := fun j => -(BTL.getD i zero3 j) / norm3 (BTL.getD i zero3) * delta.getD i 0
      let M := inertial2radial (r.getD i zero3) (v.getD i zero3)
      pure (Pai, Fi, (0 : ℝ), ui, M.mulVec ui)
  pure { r := r, v := v,
         u_inert := outs.map fun o => o.2.2.2.1,
         u_lvlh := outs.map fun o => o.2.2.2.2,
         S := Sd.1,
         F := outs.map fun o => o.2.1,
         Pa := outs.map fun o => o.1,
         delta := delta,
         zeta := outs.map fun o => o.2.2.1 }

/-- Embedding of `thrust_angle` (functions.py lines 182-254).  The first executed
statement of the body (line 205) is the bare tuple expression
`r, v, u_inert, u_lvlh, S, F, Pa, delta, zeta`; every one of those nine names is a
local variable of the function (each is assigned further down the body), so Python
raises `UnboundLocalError` — a `NameError` — before any other statement runs. -/
def thrust_angle (cfg : Config) (data : List (Fin 14 → ℝ)) (rho : ℝ)
    (eclipse : Bool) : Except PyErr ThrustOut := do
  let _ ← (Except.error PyErr.nameError : Except PyErr Unit)
  thrust_angle_rest cfg data rho eclipse

namespace EOM

/-- Evaluation environment of `eom_mee_twobodyJ2_minfuel` (eom.py lines 45-274):
the configuration record, the 14-component augmented state, and the smoothing
parameter.  The time argument is accepted by the source but never read. -/
structure Env where
  cfg : Config
  x : Fin 14 → ℝ
  rho : ℝ

/-- Constant `cn.J2` as read on eom.py line 63. -/
def J2 (e : Env) : ℝ := e.cfg.J2

/-- Constant `sc.c` as read on eom.py line 64. -/
def c (e : Env) : ℝ := e.cfg.c

/-- Constant `sc.si2can` as read on eom.py line 65. -/
def si2can (e : Env) : ℝ := e.cfg.si2can

/-- Constant `sc.Thr` as read on eom.py line 73 (the temporary fix that bypasses the
commented-out eclipse model). -/
def Thr (e : Env) : ℝ := e.cfg.Thr

/-- MEE state unpacking, eom.py lines 76-82. -/
def p (e : Env) : ℝ := e.x 0

/-- State component `f = x[1]`. -/
def f (e : Env) : ℝ := e.x 1

/-- State component `g = x[2]`. -/
def g (e : Env) : ℝ := e.x 2

/-- State component `h = x[3]`. -/
def h (e : Env) : ℝ := e.x 3

/-- State component `k = x[4]`. -/
def k (e : Env) : ℝ := e.x 4

/-- State component `L = x[5]`. -/
def L (e : Env) : ℝ := e.x 5

/-- State component `m = x[6]`. -/
def m (e : Env) : ℝ := e.x 6

/-- Costate unpacking, eom.py lines 85-91. -/
def pco1 (e : Env) : ℝ := e.x 7

/-- Costate `pco2 = x[8]`. -/
def pco2 (e : Env) : ℝ := e.x 8

/-- Costate `pco3 = x[9]`. -/
def pco3 (e : Env) : ℝ := e.x 9

/-- Costate `pco4 = x[10]`. -/
def pco4 (e : Env) : ℝ := e.x 10

/-- Costate `pco5 = x[11]`. -/
def pco5 (e : Env) : ℝ := e.x 11

/-- Costate `pco6 = x[12]`. -/
def pco6 (e : Env) : ℝ := e.x 12

/-- Costate `pco7 = x[13]`. -/
def pco7 (e : Env) : ℝ := e.x 13

/-- Intermediate terms of eom.py lines 94-250, transcribed one definition per source
assignment.  Fractional powers of p are written with `Real.sqrt`
(`p**1.5 = p*sqrt p`, `p**4.5 = p^4*sqrt p`, and so on), matching the source for the
supported regime `p > 0`. -/
def t2 (e : Env) : ℝ := Real.cos (L e)

/-- Source: `t3 = sin(L)`. -/
def t3 (e : Env) : ℝ := Real.sin (L e)

/-- Source: `t8 = f*t2`. -/
def t8 (e : Env) : ℝ := f e * t2 e

/-- Source: `t9 = g*t3`. -/
def t9 (e : Env) : ℝ := g e * t3 e

/-- Source: `t4 = t8+t9+1`. -/
def t4 (e : Env) : ℝ := t8 e + t9 e + 1

/-- Source: `t5 = t4**2`. -/
def t5 (e : Env) : ℝ := t4 e ^ 2

/-- Source: `t6 = 1/m`. -/
def t6 (e : Env) : ℝ := 1 / m e

/-- Source: `t7 = h*t3`. -/
def t7 (e : Env) : ℝ := h e * t3 e

/-- Source: `t10 = sqrt(p)`. -/
def t10 (e : Env) : ℝ := Real.sqrt (p e)

/-- Source: `t11 = 1/t4`. -/
def t11 (e : Env) : ℝ := 1 / t4 e

/-- Source: `t12 = h**2`. -/
def t12 (e : Env) : ℝ := h e ^ 2

/-- Source: `t13 = k**2`. -/
def t13 (e : Env) : ℝ := k e ^ 2

/-- Source: `t14 = t12+t13+1`. -/
def t14 (e : Env) : ℝ := t12 e + t13 e + 1

/-- Source: `t29 = k*t2`. -/
def t29 (e : Env) : ℝ := k e * t2 e

/-- Source: `t15 = t7-t29`. -/
def t15 (e : Env) : ℝ := t7 e - t29 e

/-- Source: `t30 = pco5*t3*t10*t11*t14*(1/2)`. -/
def t30 (e : Env) : ℝ := pco5 e * t3 e * t10 e * t11 e * t14 e * (1 / 2)

/-- Source: `t31 = g*pco2*t10*t11*t15`. -/
def t31 (e : Env) : ℝ := g e * pco2 e * t10 e * t11 e * t15 e

/-- Source: `t32 = pco4*t2*t10*t11*t14*(1/2)`. -/
def t32 (e : Env) : ℝ := pco4 e * t2 e * t10 e * t11 e * t14 e * (1 / 2)

/-- Source: `t16 = abs(t30-t31+t32+pco6*t10*t11*t15+f*pco3*t10*t11*t15)`. -/
def t16 (e : Env) : ℝ :=
  |t30 e - t31 e + t32 e + pco6 e * t10 e * t11 e * t15 e + f e * pco3 e * t10 e * t11 e * t15 e|

/-- Source: `t17 = p**1.5`. -/
def t17 (e : Env) : ℝ := p e * Real.sqrt (p e)

/-- Source: `t18 = t8+t9+2`. -/
def t18 (e : Env) : ℝ := t8 e + t9 e + 2

/-- Source: `t21 = pco1*t11*t17*2`. -/
def t21 (e : Env) : ℝ := pco1 e * t11 e * t17 e * 2

/-- Source: `t22 = t2*t18`. -/
def t22 (e : Env) : ℝ := t2 e * t18 e

/-- Source: `t23 = f+t22`. -/
def t23 (e : Env) : ℝ := f e + t22 e

/-- Source: `t24 = pco2*t10*t11*t23`. -/
def t24 (e : Env) : ℝ := pco2 e * t10 e * t11 e * t23 e

/-- Source: `t25 = t3*t18`. -/
def t25 (e : Env) : ℝ := t3 e * t18 e

/-- Source: `t26 = g+t25`. -/
def t26 (e : Env) : ℝ := g e + t25 e

/-- Source: `t27 = pco3*t10*t11*t26`. -/
def t27 (e : Env) : ℝ := pco3 e * t10 e * t11 e * t26 e

/-- Source: `t28 = t21+t24+t27`. -/
def t28 (e : Env) : ℝ := t21 e + t24 e + t27 e

/-- Source: `t19 = abs(t28)`. -/
def t19 (e : Env) : ℝ := |t28 e|

/-- Source: `t35 = pco3*t2*t10`. -/
def t35 (e : Env) : ℝ := pco3 e * t2 e * t10 e

/-- Source: `t36 = pco2*t3*t10`. -/
def t36 (e : Env) : ℝ := pco2 e * t3 e * t10 e

/-- Source: `t37 = t35-t36`. -/
def t37 (e : Env) : ℝ := t35 e - t36 e

/-- Source: `t20 = abs(t37)`. -/
def t20 (e : Env) : ℝ := |t37 e|

/-- Source: `t44 = pco6*t10*t11*(t7-t29)`. -/
def t44 (e : Env) : ℝ := pco6 e * t10 e * t11 e * (t7 e - t29 e)

/-- Source: `t45 = f*pco3*t10*t11*(t7-t29)`. -/
def t45 (e : Env) : ℝ := f e * pco3 e * t10 e * t11 e * (t7 e - t29 e)

/-- Source: `t46 = t30-t31+t32+t44+t45`. -/
def t46 (e : Env) : ℝ := t30 e - t31 e + t32 e + t44 e + t45 e

/-- Source: `t33 = abs(t46)`. -/
def t33 (e : Env) : ℝ := |t46 e|

/-- Source: `t34 = t19**2`. -/
def t34 (e : Env) : ℝ := t19 e ^ 2

/-- Source: `t38 = t20**2`. -/
def t38 (e : Env) : ℝ := t20 e ^ 2

/-- Source: `t39 = 1/(p**4)`. -/
def t39 (e : Env) : ℝ := 1 / p e ^ 4

/-- Source: `t40 = t7-t29`. -/
def t40 (e : Env) : ℝ := t7 e - t29 e

/-- Source: `t41 = 1/(t14**2)`. -/
def t41 (e : Env) : ℝ := 1 / t14 e ^ 2

/-- Source: `t42 = t5**2`. -/
def t42 (e : Env) : ℝ := t5 e ^ 2

/-- Source: `t43 = 1/rho`. -/
def t43 (e : Env) : ℝ := 1 / e.rho

/-- Source: `t47 = t33**2`. -/
def t47 (e : Env) : ℝ := t33 e ^ 2

/-- Source: `t48 = t34+t38+t47`. -/
def t48 (e : Env) : ℝ := t34 e + t38 e + t47 e

/-- Source: `t49 = 1/sqrt(t48)`. -/
def t49 (e : Env) : ℝ := 1 / Real.sqrt (t48 e)

/-- Source: `t50 = h*t2`. -/
def t50 (e : Env) : ℝ := h e * t2 e

/-- Source: `t51 = k*t3`. -/
def t51 (e : Env) : ℝ := k e * t3 e

/-- Source: `t52 = t50+t51`. -/
def t52 (e : Env) : ℝ := t50 e + t51 e

/-- Source: `t53 = J2*t15*t39*t41*t42*t52*12`. -/
def t53 (e : Env) : ℝ := J2 e * t15 e * t39 e * t41 e * t42 e * t52 e * 12

/-- Source: `t54 = sqrt(t48)`. -/
def t54 (e : Env) : ℝ := Real.sqrt (t48 e)

/-- Source: `t55 = c*si2can*t6*t54`. -/
def t55 (e : Env) : ℝ := c e * si2can e * t6 e * t54 e

/-- Source: `t56 = pco7+t55-1`. -/
def t56 (e : Env) : ℝ := pco7 e + t55 e - 1

/-- Source: `t57 = t43*t56`. -/
def t57 (e : Env) : ℝ := t43 e * t56 e

/-- Source: `t58 = tanh(t57)`. -/
def t58 (e : Env) : ℝ := Real.tanh (t57 e)

/-- Source: `t59 = t58*(1/2)`. -/
def t59 (e : Env) : ℝ := t58 e * (1 / 2)

/-- Source: `t60 = t59+1/2`. -/
def t60 (e : Env) : ℝ := t59 e + 1 / 2

/-- Source: `t61 = t7-t29`. -/
def t61 (e : Env) : ℝ := t7 e - t29 e

/-- Source: `t62 = Thr*si2can*t6*t37*t49*t60`. -/
def t62 (e : Env) : ℝ := Thr e * si2can e * t6 e * t37 e * t49 e * t60 e

/-- Source: `t63 = Thr*si2can*t6*t28*t49*t60`. -/
def t63 (e : Env) : ℝ := Thr e * si2can e * t6 e * t28 e * t49 e * t60 e

/-- Source: `t64 = t53+t63`. -/
def t64 (e : Env) : ℝ := t53 e + t63 e

/-- Source: `t65 = t12+t13-1`. -/
def t65 (e : Env) : ℝ := t12 e + t13 e - 1

/-- Source: `t66 = Thr*si2can*t6*t46*t49*t60`. -/
def t66 (e : Env) : ℝ := Thr e * si2can e * t6 e * t46 e * t49 e * t60 e

/-- Source: `t68 = J2*t15*t39*t41*t42*t65*6`. -/
def t68 (e : Env) : ℝ := J2 e * t15 e * t39 e * t41 e * t42 e * t65 e * 6

/-- Source: `t67 = t66-t68`. -/
def t67 (e : Env) : ℝ := t66 e - t68 e

/-- Source: `t69 = t7-t29`. -/
def t69 (e : Env) : ℝ := t7 e - t29 e

/-- Source: `t70 = 1/sqrt(p)`. -/
def t70 (e : Env) : ℝ := 1 / Real.sqrt (p e)

/-- Source: `t71 = t7-t29`. -/
def t71 (e : Env) : ℝ := t7 e - t29 e

/-- Source: `t72 = 1/(p**4.5)`. -/
def t72 (e : Env) : ℝ := 1 / (p e ^ 4 * Real.sqrt (p e))

/-- Source: `t73 = t7-t29`. -/
def t73 (e : Env) : ℝ := t7 e - t29 e

/-- Source: `t74 = t7-t29`. -/
def t74 (e : Env) : ℝ := t7 e - t29 e

/-- Source: `t75 = t7-t29`. -/
def t75 (e : Env) : ℝ := t7 e - t29 e

/-- Source: `t76 = t7-t29`. -/
def t76 (e : Env) : ℝ := t7 e - t29 e

/-- Source: `t77 = t7-t29`. -/
def t77 (e : Env) : ℝ := t7 e - t29 e

/-- Source: `t78 = 1/t14`. -/
def t78 (e : Env) : ℝ := 1 / t14 e

/-- Source: `t79 = 1/(p**1.5)`. -/
def t79 (e : Env) : ℝ := 1 / (p e * Real.sqrt (p e))

/-- Source: `t80 = 1/(p**3.5)`. -/
def t80 (e : Env) : ℝ := 1 / (p e ^ 3 * Real.sqrt (p e))

/-- Source: `t81 = t7-t29`. -/
def t81 (e : Env) : ℝ := t7 e - t29 e

/-- Source: `t82 = 1/(t4**2)`. -/
def t82 (e : Env) : ℝ := 1 / t4 e ^ 2

/-- Source: `t83 = t7-t29`. -/
def t83 (e : Env) : ℝ := t7 e - t29 e

/-- Source: `t84 = t7-t29`. -/
def t84 (e : Env) : ℝ := t7 e - t29 e

/-- Source: `t85 = t2**2`. -/
def t85 (e : Env) : ℝ := t2 e ^ 2

/-- Source: `t86 = t7-t29`. -/
def t86 (e : Env) : ℝ := t7 e - t29 e

/-- Source: `t87 = t7-t29`. -/
def t87 (e : Env) : ℝ := t7 e - t29 e

/-- Source: `t88 = 1/(p**2.5)`. -/
def t88 (e : Env) : ℝ := 1 / (p e ^ 2 * Real.sqrt (p e))

/-- Source: `t89 = t7-t29`. -/
def t89 (e : Env) : ℝ := t7 e - t29 e

/-- Source: `t90 = t2*t3*t10*t11*t64`. -/
def t90 (e : Env) : ℝ := t2 e * t3 e * t10 e * t11 e * t64 e

/-- Source: `t91 = t7-t29`. -/
def t91 (e : Env) : ℝ := t7 e - t29 e

/-- Source: `t92 = t3**2`. -/
def t92 (e : Env) : ℝ := t3 e ^ 2

/-- Source: `t93 = t7-t29`. -/
def t93 (e : Env) : ℝ := t7 e - t29 e

/-- Source: `t94 = t7-t29`. -/
def t94 (e : Env) : ℝ := t7 e - t29 e

/-- Source: `t95 = t7-t29`. -/
def t95 (e : Env) : ℝ := t7 e - t29 e

/-- Source: `t96 = -t7+t29`. -/
def t96 (e : Env) : ℝ := -t7 e + t29 e

/-- Source: `t98 = pco6*t10*t11*t96`. -/
def t98 (e : Env) : ℝ := pco6 e * t10 e * t11 e * t96 e

/-- Source: `t99 = f*pco3*t10*t11*t96`. -/
def t99 (e : Env) : ℝ := f e * pco3 e * t10 e * t11 e * t96 e

/-- Source: `t100 = g*pco2*t10*t11*t96`. -/
def t100 (e : Env) : ℝ := g e * pco2 e * t10 e * t11 e * t96 e

/-- Source: `t101 = t30+t32-t98-t99+t100`. -/
def t101 (e : Env) : ℝ := t30 e + t32 e - t98 e - t99 e + t100 e

/-- Source: `t97 = abs(t101)`. -/
def t97 (e : Env) : ℝ := |t101 e|

/-- Source: `t102 = t97**2`. -/
def t102 (e : Env) : ℝ := t97 e ^ 2

/-- Source: `t103 = t34+t38+t102`. -/
def t103 (e : Env) : ℝ := t34 e + t38 e + t102 e

/-- Source: `t104 = 1/(t14**3)`. -/
def t104 (e : Env) : ℝ := 1 / t14 e ^ 3

/-- Source: `t105 = J2*t39*t41*t42*t65*t96*6`. -/
def t105 (e : Env) : ℝ := J2 e * t39 e * t41 e * t42 e * t65 e * t96 e * 6

/-- Source: `t106 = sqrt(t103)`. -/
def t106 (e : Env) : ℝ := Real.sqrt (t103 e)

/-- Source: `t107 = c*si2can*t6*t106`. -/
def t107 (e : Env) : ℝ := c e * si2can e * t6 e * t106 e

/-- Source: `t108 = pco7+t107-1`. -/
def t108 (e : Env) : ℝ := pco7 e + t107 e - 1

/-- Source: `t109 = t43*t108`. -/
def t109 (e : Env) : ℝ := t43 e * t108 e

/-- Source: `t110 = tanh(t109)`. -/
def t110 (e : Env) : ℝ := Real.tanh (t109 e)

/-- Source: `t111 = t110*(1/2)`. -/
def t111 (e : Env) : ℝ := t110 e * (1 / 2)

/-- Source: `t112 = t111+1/2`. -/
def t112 (e : Env) : ℝ := t111 e + 1 / 2

/-- Source: `t113 = 1/sqrt(t103)`. -/
def t113 (e : Env) : ℝ := 1 / Real.sqrt (t103 e)

/-- Source: `t114 = Thr*si2can*t6*t101*t112*t113`. -/
def t114 (e : Env) : ℝ := Thr e * si2can e * t6 e * t101 e * t112 e * t113 e

/-- Source: `t115 = t105+t114`. -/
def t115 (e : Env) : ℝ := t105 e + t114 e

/-- Source: `t116 = J2*t3*t39*t41*t42*t65*6`. -/
def t116 (e : Env) : ℝ := J2 e * t3 e * t39 e * t41 e * t42 e * t65 e * 6

/-- Source: `t117 = J2*h*t39*t42*t65*t96*t104*24`. -/
def t117 (e : Env) : ℝ := J2 e * h e * t39 e * t42 e * t65 e * t96 e * t104 e * 24

/-- Source: `t122 = J2*h*t39*t41*t42*t96*12`. -/
def t122 (e : Env) : ℝ := J2 e * h e * t39 e * t41 e * t42 e * t96 e * 12

/-- Source: `t118 = t116+t117-t122`. -/
def t118 (e : Env) : ℝ := t116 e + t117 e - t122 e

/-- Source: `t119 = J2*t3*t39*t41*t42*t52*12`. -/
def t119 (e : Env) : ℝ := J2 e * t3 e * t39 e * t41 e * t42 e * t52 e * 12

/-- Source: `t120 = J2*h*t39*t42*t52*t96*t104*48`. -/
def t120 (e : Env) : ℝ := J2 e * h e * t39 e * t42 e * t52 e * t96 e * t104 e * 48

/-- Source: `t127 = J2*t2*t39*t41*t42*t96*12`. -/
def t127 (e : Env) : ℝ := J2 e * t2 e * t39 e * t41 e * t42 e * t96 e * 12

/-- Source: `t121 = t119+t120-t127`. -/
def t121 (e : Env) : ℝ := t119 e + t120 e - t127 e

/-- Source: `t123 = t3*t41*t96*24`. -/
def t123 (e : Env) : ℝ := t3 e * t41 e * t96 e * 24

/-- Source: `t124 = t9**2`. -/
def t124 (e : Env) : ℝ := t9 e ^ 2

/-- Source: `t125 = h*t104*t124*48`. -/
def t125 (e : Env) : ℝ := h e * t104 e * t124 e * 48

/-- Source: `t126 = t123+t125`. -/
def t126 (e : Env) : ℝ := t123 e + t125 e

/-- Source: `t128 = J2*t2*t39*t41*t42*t65*6`. -/
def t128 (e : Env) : ℝ := J2 e * t2 e * t39 e * t41 e * t42 e * t65 e * 6

/-- Source: `t129 = J2*k*t39*t41*t42*t96*12`. -/
def t129 (e : Env) : ℝ := J2 e * k e * t39 e * t41 e * t42 e * t96 e * 12

/-- Source: `t134 = J2*k*t39*t42*t65*t96*t104*24`. -/
def t134 (e : Env) : ℝ := J2 e * k e * t39 e * t42 e * t65 e * t96 e * t104 e * 24

/-- Source: `t130 = t128+t129-t134`. -/
def t130 (e : Env) : ℝ := t128 e + t129 e - t134 e

/-- Source: `t131 = J2*t2*t39*t41*t42*t52*12`. -/
def t131 (e : Env) : ℝ := J2 e * t2 e * t39 e * t41 e * t42 e * t52 e * 12

/-- Source: `t132 = J2*t3*t39*t41*t42*t96*12`. -/
def t132 (e : Env) : ℝ := J2 e * t3 e * t39 e * t41 e * t42 e * t96 e * 12

/-- Source: `t137 = J2*k*t39*t42*t52*t96*t104*48`. -/
def t137 (e : Env) : ℝ := J2 e * k e * t39 e * t42 e * t52 e * t96 e * t104 e * 48

/-- Source: `t133 = t131+t132-t137`. -/
def t133 (e : Env) : ℝ := t131 e + t132 e - t137 e

/-- Source: `t135 = k*t104*t124*48`. -/
def t135 (e : Env) : ℝ := k e * t104 e * t124 e * 48

/-- Source: `t136 = t135-t2*t41*t96*24`. -/
def t136 (e : Env) : ℝ := t135 e - t2 e * t41 e * t96 e * 24

/-- Source: `t138 = t41*t124*12`. -/
def t138 (e : Env) : ℝ := t41 e * t124 e * 12

/-- Source: `t139 = t138-1`. -/
def t139 (e : Env) : ℝ := t138 e - 1

/-- Source: `t140 = f*t3`. -/
def t140 (e : Env) : ℝ := f e * t3 e

/-- Source: `t142 = g*t2`. -/
def t142 (e : Env) : ℝ := g e * t2 e

/-- Source: `t141 = t140-t142`. -/
def t141 (e : Env) : ℝ := t140 e - t142 e

/-- Source: `t143 = Thr*si2can*t6*t28*t112*t113`. -/
def t143 (e : Env) : ℝ := Thr e * si2can e * t6 e * t28 e * t112 e * t113 e

/-- Source: `t151 = J2*t39*t41*t42*t52*t96*12`. -/
def t151 (e : Env) : ℝ := J2 e * t39 e * t41 e * t42 e * t52 e * t96 e * 12

/-- Source: `t144 = t143-t151`. -/
def t144 (e : Env) : ℝ := t143 e - t151 e

/-- Source: `t145 = J2*t4*t5*t39*t139*t141*6`. -/
def t145 (e : Env) : ℝ := J2 e * t4 e * t5 e * t39 e * t139 e * t141 e * 6

/-- Source: `t146 = J2*t39*t41*t42*t52*t96*36`. -/
def t146 (e : Env) : ℝ := J2 e * t39 e * t41 e * t42 e * t52 e * t96 e * 36

/-- Source: `t147 = t145+t146`. -/
def t147 (e : Env) : ℝ := t145 e + t146 e

/-- Source: `t148 = J2*t39*t42*t139*(3/2)`. -/
def t148 (e : Env) : ℝ := J2 e * t39 e * t42 e * t139 e * (3 / 2)

/-- Source: `t149 = Thr*si2can*t6*t37*t112*t113`. -/
def t149 (e : Env) : ℝ := Thr e * si2can e * t6 e * t37 e * t112 e * t113 e

/-- Source: `t150 = t148+t149`. -/
def t150 (e : Env) : ℝ := t148 e + t149 e

/-- Source: `t152 = t52**2`. -/
def t152 (e : Env) : ℝ := t52 e ^ 2

/-- Source: `t153 = J2*t39*t41*t42*t152*12`. -/
def t153 (e : Env) : ℝ := J2 e * t39 e * t41 e * t42 e * t152 e * 12

/-- Source: `t154 = J2*t4*t5*t39*t41*t52*t96*t141*48`. -/
def t154 (e : Env) : ℝ := J2 e * t4 e * t5 e * t39 e * t41 e * t52 e * t96 e * t141 e * 48

/-- Source: `t155 = J2*t39*t41*t42*t52*t65*6`. -/
def t155 (e : Env) : ℝ := J2 e * t39 e * t41 e * t42 e * t52 e * t65 e * 6

/-- Source: `t156 = J2*t4*t5*t39*t41*t65*t96*(t140-t142)*24`. -/
def t156 (e : Env) : ℝ :=
  J2 e * t4 e * t5 e * t39 e * t41 e * t65 e * t96 e * (t140 e - t142 e) * 24

/-- Source: `t157 = t155+t156`. -/
def t157 (e : Env) : ℝ := t155 e + t156 e

/-- Source: `t158 = 1/m**2`. -/
def t158 (e : Env) : ℝ := 1 / m e ^ 2

/-- Derivative component `dxdt[0]` (eom.py line 252). -/
def dxdt0 (e : Env) : ℝ :=
  t11 e * t17 e * (t53 e + Thr e * si2can e * t6 e * t28 e * t49 e *
    (Real.tanh (t43 e * (pco7 e + c e * si2can e * t6 e *
      Real.sqrt (t34 e + t38 e + t16 e ^ 2) - 1)) * (1 / 2) + 1 / 2)) * (-2)

/-- Derivative component `dxdt[1]` (eom.py line 253). -/
def dxdt1 (e : Env) : ℝ :=
  t3 e * t10 e * (t62 e + J2 e * t39 e * t42 e * (t40 e ^ 2 * t41 e * 12 - 1) * (3 / 2)) -
    t10 e * t11 e * t23 e * t64 e + g e * t10 e * t11 e * t15 e * t67 e

/-- Derivative component `dxdt[2]` (eom.py line 254). -/
def dxdt2 (e : Env) : ℝ :=
  -t2 e * t10 e * (t62 e + J2 e * t39 e * t42 e * (t41 e * t61 e ^ 2 * 12 - 1) * (3 / 2)) -
    t10 e * t11 e * t26 e * t64 e - f e * t10 e * t11 e * t15 e * t67 e

/-- Derivative component `dxdt[3]` (eom.py line 255). -/
def dxdt3 (e : Env) : ℝ :=
  t2 e * t10 e * t11 e * t14 e * t67 e * (-1 / 2)

/-- Derivative component `dxdt[4]` (eom.py line 256). -/
def dxdt4 (e : Env) : ℝ :=
  t3 e * t10 e * t11 e * t14 e * t67 e * (-1 / 2)

/-- Derivative component `dxdt[5]` (eom.py line 257). -/
def dxdt5 (e : Env) : ℝ :=
  t5 e * t79 e - t10 e * t11 e * t15 e * t67 e

/-- Derivative component `dxdt[6]` (eom.py line 258). -/
def dxdt6 (e : Env) : ℝ :=
  -(Thr e * t60 e) / c e

/-- Derivative component `dxdt[7]` (eom.py line 260). -/
def dxdt7 (e : Env) : ℝ :=
  pco6 e * (t5 e * t88 e * (3 / 2) + t11 e * t67 e * t70 e * (t7 e - t29 e) * (1 / 2) +
      J2 e * t4 e * t5 e * t41 e * t65 e * t69 e ^ 2 * t72 e * 24) -
    pco2 e * (t3 e * t70 e *
        (t62 e + J2 e * t39 e * t42 e * (t41 e * t71 e ^ 2 * 12 - 1) * (3 / 2)) * (1 / 2) -
      t11 e * t23 e * t64 e * t70 e * (1 / 2) -
      J2 e * t3 e * t42 e * t72 e * (t41 e * t73 e ^ 2 * 12 - 1) * 6 +
      g e * t11 e * t15 e * t67 e * t70 e * (1 / 2) +
      J2 e * g e * t4 e * t5 e * t41 e * t65 e * t72 e * t74 e ^ 2 * 24 +
      J2 e * t4 e * t5 e * t15 e * t23 e * t41 e * t52 e * t72 e * 48) +
    pco3 e * (t2 e * t70 e *
        (t62 e + J2 e * t39 e * t42 e * (t41 e * t75 e ^ 2 * 12 - 1) * (3 / 2)) * (1 / 2) +
      t11 e * t26 e * t70 e * (t53 e + t63 e) * (1 / 2) -
      J2 e * t2 e * t42 e * t72 e * (t41 e * t76 e ^ 2 * 12 - 1) * 6 +
      f e * t11 e * t67 e * t70 e * (t7 e - t29 e) * (1 / 2) +
      J2 e * f e * t4 e * t5 e * t41 e * t65 e * t72 e * t77 e ^ 2 * 24 -
      J2 e * t4 e * t5 e * t15 e * t26 e * t41 e * t52 e * t72 e * 48) +
    pco1 e * t10 e * t11 e * (t53 e + t63 e) * 3 +
    pco4 e * t2 e * t11 e * t14 e * t67 e * t70 e * (1 / 4) +
    pco5 e * t3 e * t11 e * t14 e * t67 e * t70 e * (1 / 4) -
    J2 e * pco1 e * t4 e * t5 e * t15 e * t41 e * t52 e * t80 e * 96 +
    J2 e * pco4 e * t2 e * t4 e * t5 e * t65 e * t72 e * t78 e * (t7 e - t29 e) * 12 +
    J2 e * pco5 e * t3 e * t4 e * t5 e * t65 e * t72 e * t78 e * (t7 e - t29 e) * 12

/-- Derivative component `dxdt[8]` (eom.py line 262). -/
def dxdt8 (e : Env) : ℝ :=
  pco3 e * (t90 e + t10 e * t11 e * t15 e * t67 e -
      t2 e * t10 e * t26 e * t82 e * (t53 e + t63 e) -
      f e * t2 e * t10 e * t67 e * t82 e * (t7 e - t29 e) +
      J2 e * t4 e * t5 e * t80 e * t85 e * (t41 e * t86 e ^ 2 * 12 - 1) * 6 -
      J2 e * f e * t2 e * t5 e * t41 e * t65 e * t80 e * t87 e ^ 2 * 24 +
      J2 e * t2 e * t5 e * t15 e * t26 e * t41 e * t52 e * t80 e * 48) +
    pco2 e * (t10 e * t11 e * t64 e * (t85 e + 1) -
      t2 e * t10 e * t23 e * t82 e * (t53 e + t63 e) +
      g e * t2 e * t10 e * t15 e * t67 e * t82 e -
      J2 e * t2 e * t3 e * t4 e * t5 e * t80 e * (t41 e * t83 e ^ 2 * 12 - 1) * 6 +
      J2 e * g e * t2 e * t5 e * t41 e * t65 e * t80 e * t84 e ^ 2 * 24 +
      J2 e * t2 e * t5 e * t15 e * t23 e * t41 e * t52 e * t80 e * 48) -
    pco6 e * (t2 e * t4 e * t79 e * 2 + t2 e * t10 e * t15 e * t67 e * t82 e +
      J2 e * t2 e * t5 e * t41 e * t65 e * t80 e * t81 e ^ 2 * 24) -
    pco1 e * t2 e * t17 e * t64 e * t82 e * 2 -
    pco4 e * t10 e * t14 e * t67 e * t82 e * t85 e * (1 / 2) -
    pco5 e * t2 e * t3 e * t10 e * t14 e * t67 e * t82 e * (1 / 2) +
    J2 e * pco1 e * t2 e * t5 e * t41 e * t52 e * t88 e * (t7 e - t29 e) * 96 -
    J2 e * pco4 e * t5 e * t15 e * t65 e * t78 e * t80 e * t85 e * 12 -
    J2 e * pco5 e * t2 e * t3 e * t5 e * t15 e * t65 e * t78 e * t80 e * 12

/-- Derivative component `dxdt[9]` (eom.py line 264). -/
def dxdt9 (e : Env) : ℝ :=
  pco2 e * (t90 e - t10 e * t11 e * t67 e * (t7 e - t29 e) -
      t3 e * t10 e * t23 e * t82 e * (t53 e + t63 e) +
      g e * t3 e * t10 e * t15 e * t67 e * t82 e -
      J2 e * t4 e * t5 e * t80 e * t92 e * (t41 e * t89 e ^ 2 * 12 - 1) * 6 +
      J2 e * g e * t3 e * t5 e * t41 e * t65 e * t80 e * t91 e ^ 2 * 24 +
      J2 e * t3 e * t5 e * t15 e * t23 e * t41 e * t52 e * t80 e * 48) -
    pco6 e * (t3 e * t4 e * t79 e * 2 + t3 e * t10 e * t15 e * t67 e * t82 e +
      J2 e * t3 e * t5 e * t41 e * t65 e * t80 e * t95 e ^ 2 * 24) +
    pco3 e * (t10 e * t11 e * t64 e * (t92 e + 1) -
      t3 e * t10 e * t26 e * t82 e * (t53 e + t63 e) -
      f e * t3 e * t10 e * t67 e * t82 e * (t7 e - t29 e) +
      J2 e * t2 e * t3 e * t4 e * t5 e * t80 e * (t41 e * t93 e ^ 2 * 12 - 1) * 6 -
      J2 e * f e * t3 e * t5 e * t41 e * t65 e * t80 e * t94 e ^ 2 * 24 +
      J2 e * t3 e * t5 e * t15 e * t26 e * t41 e * t52 e * t80 e * 48) -
    pco1 e * t3 e * t17 e * t64 e * t82 e * 2 -
    pco5 e * t10 e * t14 e * t67 e * t82 e * t92 e * (1 / 2) -
    pco4 e * t2 e * t3 e * t10 e * t14 e * t67 e * t82 e * (1 / 2) +
    J2 e * pco1 e * t3 e * t5 e * t41 e * t52 e * t88 e * (t7 e - t29 e) * 96 -
    J2 e * pco5 e * t5 e * t15 e * t65 e * t78 e * t80 e * t92 e * 12 -
    J2 e * pco4 e * t2 e * t3 e * t5 e * t15 e * t65 e * t78 e * t80 e * 12

/-- Derivative component `dxdt[10]` (eom.py line 266). -/
def dxdt10 (e : Env) : ℝ :=
  pco3 e * (t10 e * t11 e * t26 e * t121 e - J2 e * t2 e * t42 e * t80 e * t126 e * (3 / 2) +
      f e * t3 e * t10 e * t11 e * t115 e + f e * t10 e * t11 e * t96 e * t118 e) +
    pco2 e * (t10 e * t11 e * t23 e * t121 e + J2 e * t3 e * t42 e * t80 e * t126 e * (3 / 2) -
      g e * t3 e * t10 e * t11 e * t115 e - g e * t10 e * t11 e * t96 e * t118 e) +
    pco6 e * (t3 e * t10 e * t11 e * t115 e + t10 e * t11 e * t96 e * t118 e) +
    pco1 e * t11 e * t17 e * t121 e * 2 +
    h e * pco4 e * t2 e * t10 e * t11 e * t115 e +
    h e * pco5 e * t3 e * t10 e * t11 e * t115 e -
    pco4 e * t2 e * t10 e * t11 e * t14 e * t118 e * (1 / 2) -
    pco5 e * t3 e * t10 e * t11 e * t14 e * t118 e * (1 / 2)

/-- Derivative component `dxdt[11]` (eom.py line 268). -/
def dxdt11 (e : Env) : ℝ :=
  -pco3 e * (t10 e * t11 e * t26 e * t133 e + J2 e * t2 e * t42 e * t80 e * t136 e * (3 / 2) +
      f e * t2 e * t10 e * t11 e * t115 e + f e * t10 e * t11 e * t96 e * t130 e) +
    pco2 e * (-t10 e * t11 e * t23 e * t133 e + J2 e * t3 e * t42 e * t80 e * t136 e * (3 / 2) +
      g e * t2 e * t10 e * t11 e * t115 e + g e * t10 e * t11 e * t96 e * t130 e) -
    pco6 e * (t2 e * t10 e * t11 e * t115 e + t10 e * t11 e * t96 e * t130 e) -
    pco1 e * t11 e * t17 e * t133 e * 2 +
    k e * pco4 e * t2 e * t10 e * t11 e * t115 e +
    k e * pco5 e * t3 e * t10 e * t11 e * t115 e +
    pco4 e * t2 e * t10 e * t11 e * t14 e * t130 e * (1 / 2) +
    pco5 e * t3 e * t10 e * t11 e * t14 e * t130 e * (1 / 2)

/-- Derivative component `dxdt[12]` (eom.py line 270). -/
def dxdt12 (e : Env) : ℝ :=
  pco6 e * (t4 e * t79 e * (t140 e - t142 e) * 2 + t10 e * t11 e * t52 e * t115 e +
      t10 e * t11 e * t96 e * t157 e - t10 e * t82 e * t96 e * t115 e * t141 e) +
    pco3 e * (-t2 e * t10 e * t147 e - t3 e * t10 e * t150 e +
      t10 e * t11 e * (t22 e - t3 e * t141 e) * (t143 e - t151 e) +
      t10 e * t11 e * t26 e *
        (t153 e + t154 e - J2 e * t39 e * t41 e * t42 e * t124 e * 12) +
      t10 e * t26 e * t82 e * (t140 e - t142 e) * (t143 e - t151 e) +
      f e * t10 e * t11 e * t52 e * t115 e + f e * t10 e * t11 e * t96 e * t157 e -
      f e * t10 e * t82 e * t96 e * t115 e * t141 e) +
    pco2 e * (t3 e * t10 e * t147 e - t2 e * t10 e * t150 e +
      t10 e * t11 e * t23 e *
        (t153 e + t154 e - J2 e * t39 e * t41 e * t42 e * t124 e * 12) -
      t10 e * t11 e * t144 e * (t25 e + t2 e * t141 e) -
      g e * t10 e * t11 e * t52 e * t115 e - g e * t10 e * t11 e * t96 e * t157 e +
      t10 e * t23 e * t82 e * t141 e * t144 e +
      g e * t10 e * t82 e * t96 e * t115 e * t141 e) +
    pco1 e * t11 e * t17 e *
      (t153 e + t154 e - J2 e * t39 e * t41 e * t42 e * t124 e * 12) * 2 +
    pco1 e * t17 e * t82 e * (t140 e - t142 e) * (t143 e - t151 e) * 2 -
    pco4 e * t3 e * t10 e * t11 e * t14 e * t115 e * (1 / 2) +
    pco5 e * t2 e * t10 e * t11 e * t14 e * t115 e * (1 / 2) -
    pco4 e * t2 e * t10 e * t11 e * t14 e * t157 e * (1 / 2) -
    pco5 e * t3 e * t10 e * t11 e * t14 e * t157 e * (1 / 2) +
    pco4 e * t2 e * t10 e * t14 e * t82 e * t115 e * (t140 e - t142 e) * (1 / 2) +
    pco5 e * t3 e * t10 e * t14 e * t82 e * t115 e * (t140 e - t142 e) * (1 / 2)

/-- Derivative component `dxdt[13]` (eom.py line 272). -/
def dxdt13 (e : Env) : ℝ :=
  -pco3 e * (Thr e * si2can e * t2 e * t10 e * t37 e * t112 e * t113 e * t158 e +
      Thr e * si2can e * t10 e * t11 e * t26 e * t28 e * t112 e * t113 e * t158 e -
      Thr e * si2can e * f e * t10 e * t11 e * t96 e * t101 e * t112 e * t113 e * t158 e) -
    pco2 e * (-(Thr e * si2can e * t3 e * t10 e * t37 e * t112 e * t113 e * t158 e) +
      Thr e * si2can e * t10 e * t11 e * t23 e * t28 e * t112 e * t113 e * t158 e +
      Thr e * si2can e * g e * t10 e * t11 e * t96 e * t101 e * t112 e * t113 e * t158 e) -
    Thr e * si2can e * pco1 e * t11 e * t17 e * t28 e * t112 e * t113 e * t158 e * 2 +
    Thr e * si2can e * pco6 e * t10 e * t11 e * t96 e * t101 e * t112 e * t113 e * t158 e -
    Thr e * si2can e * pco4 e * t2 e * t10 e * t11 e * t14 e * t101 e * t112 e * t113 e *
      t158 e * (1 / 2) -
    Thr e * si2can e * pco5 e * t3 e * t10 e * t11 e * t14 e * t101 e * t112 e * t113 e *
      t158 e * (1 / 2)

/-- Assembled 14-component derivative vector (eom.py lines 252-274). -/
def dxdt (e : Env) : Fin 14 → ℝ :=
  ![dxdt0 e, dxdt1 e, dxdt2 e, dxdt3 e, dxdt4 e, dxdt5 e, dxdt6 e,
    dxdt7 e, dxdt8 e, dxdt9 e, dxdt10 e, dxdt11 e, dxdt12 e, dxdt13 e]

end EOM

/-- Embedding of `eom_mee_twobodyJ2_minfuel` (eom.py lines 45-274).  The time argument
is accepted but never read by the body, and the eclipse flag is accepted but never
read either: the eclipse model (eom.py lines 67-72) is fully commented out and line 73
sets `Thr = sc.Thr` unconditionally. -/
def eom_mee_twobodyJ2_minfuel (cfg : Config) (t : ℝ) (x : Fin 14 → ℝ) (rho : ℝ)
    (eclipse : Bool) : Fin 14 → ℝ :=
  EOM.dxdt ⟨cfg, x, rho⟩

/-- Smoothed-Heaviside throttle law of §4.2, `0.5*(1+tanh(S/rho))`, as a function of
an arbitrary switching value; the per-sample throttle of the source (functions.py
line 179) is this map applied to the sample's switching scalar. -/
def deltaFun (S rho : ℝ) : ℝ :=
  0.5 * (1 + Real.tanh (S / rho))

/-- Numeric-domain faults for the guarded evaluation of `switch_function`: a division
with zero denominator or a square root of a negative operand. -/
inductive NumErr where
  | divByZero
  | sqrtNeg
deriving DecidableEq, Repr

open Classical in
/-- Guarded real division: errors exactly when the denominator is zero. -/
def cdiv (a b : ℝ) : Except NumErr ℝ :=
  if b = 0 then Except.error NumErr.divByZero else Except.ok (a / b)

open Classical in
/-- Guarded real square root: errors exactly when the operand is negative. -/
def csqrt (a : ℝ) : Except NumErr ℝ :=
  if a < 0 then Except.error NumErr.sqrtNeg else Except.ok (Real.sqrt a)

/-- Guarded per-sample body of `switch_function` (functions.py lines 161-179): the same
computation with every division and square root routed through `cdiv`/`csqrt`, so a
degenerate operand surfaces as an error instead of a non-finite float. -/
def switch1_checked (cfg : Config) (x : Fin 14 → ℝ) (rho : ℝ) :
    Except NumErr (ℝ × ℝ × (Fin 3 → ℝ)) := do
  let SinL := Real.sin (x 5)
  let CosL := Real.cos (x 5)
  let q := 1 + x 1 * CosL + x 2 * SinL
  let s := 1 + x 3 ^ 2 + x 4 ^ 2
  let C1 ← csqrt (x 0)
  let C2 ← cdiv 1 q
  let C3 := x 3 * SinL - x 4 * CosL
  let gq ← cdiv (x 2) q
  let fq ← cdiv (x 1) q
  let b31 ← cdiv (C1 * s * CosL * C2) 2
  let b41 ← cdiv (C1 * s * SinL * C2) 2
  let B : Matrix (Fin 7) (Fin 3) ℝ :=
    !![0, 2 * x 0 * C2 * C1, 0;
       C1 * SinL, C1 * C2 * ((q + 1) * CosL + x 1), -C1 * gq * C3;
       -C1 * CosL, C1 * C2 * ((q + 1) * SinL + x 2), C1 * fq * C3;
       0, 0, b31;
       0, 0, b41;
       0, 0, C1 * C2 * C3;
       0, 0, 0]
  let BTL := B.transpose.mulVec (lamVec x)
  let nB ← csqrt (BTL 0 ^ 2 + BTL 1 ^ 2 + BTL 2 ^ 2)
  let Sm ← cdiv (cfg.c * cfg.si2can * nB) (x 6)
  let S := Sm + x 13 - 1
  let Sr ← cdiv S rho
  let delta := 0.5 * (1 + Real.tanh Sr)
  pure (S, delta, BTL)

/-- Guarded batch evaluation of `switch_function`: one guarded sample per row. -/
def switch_function_checked (cfg : Config) (data : List (Fin 14 → ℝ)) (rho : ℝ) :
    Except NumErr (List (ℝ × ℝ × (Fin 3 → ℝ))) :=
  data.mapM fun x => switch1_checked cfg x rho

/-- Unperturbed two-body Keplerian variational right-hand side in MEE as the spec
words it (§8): `dp = df = dg = dh = dk = 0` and
`dL = sqrt(mu/p^3)*(1 + f*cos L + g*sin L)^2`.  Written from the spec for comparison
with the embedded dynamics. -/
def keplerianMEE (mu p f g L : ℝ) : Fin 6 → ℝ :=
  ![0, 0, 0, 0, 0, Real.sqrt (mu / p ^ 3) * (1 + f * Real.cos L + g * Real.sin L) ^ 2]

/-- Concrete configuration used to exercise the Keplerian-reduction statement: unit
constants except `J2 = 0` and `Thr = 0`, with `mu = 1` (canonical units). -/
def cfgKepler : Config :=
  ⟨1, 0, 1, 1, 1, 1, 1, 1, 1, 0, 1, 1, 1⟩

/-- Concrete augmented state used to exercise the Keplerian-reduction statement: unit
orbital elements and mass, all seven costates zero. -/
def xKepler : Fin 14 → ℝ :=
  fun j => if (j : ℕ) < 7 then 1 else 0

/-- Concrete augmented state used to exercise the guarded switch function: zero
elements and costates except unit mass. -/
def xSafe : Fin 14 → ℝ :=
  ![0, 0, 0, 0, 0, 0, 1, 0, 0, 0, 0, 0, 0, 0]

/-! Helper lemmas about the hyperbolic tangent used by the throttle law. -/

theorem tanh_closed_form (x : ℝ) : Real.tanh x = 1 - 2 / (Real.exp (2 * x) + 1) := by
  have hx : Real.exp x ≠ 0 := (Real.exp_pos x).ne'
  have h2x : Real.exp (2 * x) = Real.exp x * Real.exp x := by
    rw [two_mul, Real.exp_add]
  have hc : (0 : ℝ) < Real.exp x + (Real.exp x)⁻¹ := by positivity
  have hd : (0 : ℝ) < Real.exp x * Real.exp x + 1 := by positivity
  rw [Real.tanh_eq_sinh_div_cosh, Real.sinh_eq, Real.cosh_eq, Real.exp_neg, h2x]
  field_simp
  ring

theorem neg_one_lt_tanh (x : ℝ) : -1 < Real.tanh x := by
  rw [tanh_closed_form]
  have h1 : (0 : ℝ) < Real.exp (2 * x) + 1 := by positivity
  have h2 : 2 / (Real.exp (2 * x) + 1) < 2 := by
    rw [div_lt_iff h1]
    nlinarith [Real.exp_pos (2 * x)]
  linarith

theorem tanh_lt_one (x : ℝ) : Real.tanh x < 1 := by
  rw [tanh_closed_form]
  have h1 : (0 : ℝ) < 2 / (Real.exp (2 * x) + 1) := by positivity
  linarith

theorem tanh_monotone : Monotone Real.tanh := by
  intro a b hab
  rw [tanh_closed_form, tanh_closed_form]
  have h1 : Real.exp (2 * a) ≤ Real.exp (2 * b) := Real.exp_le_exp.mpr (by linarith)
  have h4 : 2 / (Real.exp (2 * b) + 1) ≤ 2 / (Real.exp (2 * a) + 1) := by
    have h2 : (0 : ℝ) < Real.exp (2 * a) + 1 := by positivity
    gcongr
  linarith

theorem tendsto_tanh_atTop : Filter.Tendsto Real.tanh Filter.atTop (nhds 1) := by
  have he : Filter.Tendsto (fun x : ℝ => Real.exp (2 * x) + 1) Filter.atTop Filter.atTop := by
    apply Filter.tendsto_atTop_add_const_right
    exact Real.tendsto_exp_atTop.comp
      (Filter.Tendsto.const_mul_atTop two_pos Filter.tendsto_id)
  have h0 : Filter.Tendsto (fun x : ℝ => 2 / (Real.exp (2 * x) + 1))
      Filter.atTop (nhds 0) :=
    Filter.Tendsto.div_atTop tendsto_const_nhds he
  have h2 := (tendsto_const_nhds :
    Filter.Tendsto (fun _ : ℝ => (1 : ℝ)) Filter.atTop (nhds 1)).sub h0
  rw [funext tanh_closed_form]
  simpa using h2

theorem tendsto_tanh_atBot : Filter.Tendsto Real.tanh Filter.atBot (nhds (-1)) := by
  have he : Filter.Tendsto (fun x : ℝ => Real.exp (2 * x)) Filter.atBot (nhds 0) :=
    Real.tendsto_exp_atBot.comp
      (Filter.Tendsto.const_mul_atBot two_pos Filter.tendsto_id)
  have h1 : Filter.Tendsto (fun x : ℝ => Real.exp (2 * x) + 1) Filter.atBot (nhds 1) := by
    simpa using he.add (tendsto_const_nhds :
      Filter.Tendsto (fun _ : ℝ => (1 : ℝ)) Filter.atBot (nhds 1))
  have h0 : Filter.Tendsto (fun x : ℝ => 2 / (Real.exp (2 * x) + 1))
      Filter.atBot (nhds 2) := by
    have := Filter.Tendsto.div (tendsto_const_nhds :
      Filter.Tendsto (fun _ : ℝ => (2 : ℝ)) Filter.atBot (nhds 2)) h1 one_ne_zero
    simpa using this
  have h2 := (tendsto_const_nhds :
    Filter.Tendsto (fun _ : ℝ => (1 : ℝ)) Filter.atBot (nhds 1)).sub h0
  rw [funext tanh_closed_form]
  have : (1 : ℝ) - 2 = -1 := by norm_num
  simpa [this] using h2

/-! Properties of the smoothing map `deltaFun`. -/

theorem deltaFun_pos (s rho : ℝ) : 0 < deltaFun s rho := by
  have := neg_one_lt_tanh (s / rho)
  unfold deltaFun
  nlinarith

theorem deltaFun_lt_one (s rho : ℝ) : deltaFun s rho < 1 := by
  have := tanh_lt_one (s / rho)
  unfold deltaFun
  nlinarith

theorem deltaFun_zero (rho : ℝ) : deltaFun 0 rho = 1 / 2 := by
  unfold deltaFun
  rw [zero_div, Real.tanh_zero]
  norm_num

theorem deltaFun_monotone (rho : ℝ) (hrho : 0 < rho) :
    Monotone (fun s => deltaFun s rho) := by
  intro a b hab
  have h1 : Real.tanh (a / rho) ≤ Real.tanh (b / rho) :=
    tanh_monotone ((div_le_div_right hrho).mpr hab)
  unfold deltaFun
  nlinarith

theorem deltaFun_tendsto_atTop (rho : ℝ) (hrho : 0 < rho) :
    Filter.Tendsto (fun s => deltaFun s rho) Filter.atTop (nhds 1) := by
  have hdiv : Filter.Tendsto (fun s : ℝ => s / rho) Filter.atTop Filter.atTop :=
    Filter.Tendsto.atTop_div_const hrho Filter.tendsto_id
  have h1 : Filter.Tendsto (fun s : ℝ => Real.tanh (s / rho)) Filter.atTop (nhds 1) :=
    tendsto_tanh_atTop.comp hdiv
  have h2 := ((tendsto_const_nhds :
    Filter.Tendsto (fun _ : ℝ => (1 : ℝ)) Filter.atTop (nhds 1)).add h1).const_mul (0.5 : ℝ)
  unfold deltaFun
  have : (0.5 : ℝ) * (1 + 1) = 1 := by norm_num
  simpa [this] using h2

theorem deltaFun_tendsto_atBot (rho : ℝ) (hrho : 0 < rho) :
    Filter.Tendsto (fun s => deltaFun s rho) Filter.atBot (nhds 0) := by
  have hdiv : Filter.Tendsto (fun s : ℝ => s / rho) Filter.atBot Filter.atBot :=
    Filter.Tendsto.atBot_div_const hrho Filter.tendsto_id
  have h1 : Filter.Tendsto (fun s : ℝ => Real.tanh (s / rho)) Filter.atBot (nhds (-1)) :=
    tendsto_tanh_atBot.comp hdiv
  have h2 := ((tendsto_const_nhds :
    Filter.Tendsto (fun _ : ℝ => (1 : ℝ)) Filter.atBot (nhds 1)).add h1).const_mul (0.5 : ℝ)
  unfold deltaFun
  have : (0.5 : ℝ) * (1 + -1) = 0 := by norm_num
  simpa [this] using h2

/-- C3: the throttle returned by `switch_function` satisfies
`delta[i] = 0.5*(1+tanh(S[i]/rho))`; for `rho > 0` that smoothing map takes values
strictly inside `(0,1)`, equals `1/2` at `S = 0`, is monotone non-decreasing in `S`,
and tends to `1` at `S → +∞` and to `0` at `S → -∞`. -/
theorem switch_function_delta_smoothing (cfg : Config) (data : List (Fin 14 → ℝ))
    (rho : ℝ) (i : ℕ) (hd : i < data.length)
    (h2 : i < (switch_function cfg data rho).2.1.length)
    (h1 : i < (switch_function cfg data rho).1.length)
    (hrho : 0 < rho) :
    (switch_function cfg data rho).2.1.get ⟨i, h2⟩ =
        deltaFun ((switch_function cfg data rho).1.get ⟨i, h1⟩) rho ∧
    (∀ s : ℝ, 0 < deltaFun s rho ∧ deltaFun s rho < 1) ∧
    deltaFun 0 rho = 1 / 2 ∧
    Monotone (fun s => deltaFun s rho) ∧
    Filter.Tendsto (fun s => deltaFun s rho) Filter.atTop (nhds 1) ∧
    Filter.Tendsto (fun s => deltaFun s rho) Filter.atBot (nhds 0) := by
  refine ⟨?_, fun s => ⟨deltaFun_pos s rho, deltaFun_lt_one s rho⟩, deltaFun_zero rho,
    deltaFun_monotone rho hrho, deltaFun_tendsto_atTop rho hrho,
    deltaFun_tendsto_atBot rho hrho⟩
  simp [switch_function, delta1, deltaFun]

/-- Witness for C3 at the all-ones sample and `rho = 1`. -/
theorem switch_function_delta_smoothing_witness :
    0 < ((fun _ => 1 : Fin 14 → ℝ) :: []).length ∧ (0 : ℝ) < 1 ∧
    ((switch_function ⟨1, 1, 1, 1, 1, 1, 1, 1, 1, 1, 1, 1, 1⟩ [fun _ => 1] 1).2.1.get
        ⟨0, by simp [switch_function]⟩ =
      deltaFun ((switch_function ⟨1, 1, 1, 1, 1, 1, 1, 1, 1, 1, 1, 1, 1⟩
        [fun _ => 1] 1).1.get ⟨0, by simp [switch_function]⟩) 1 ∧
    (∀ s : ℝ, 0 < deltaFun s 1 ∧ deltaFun s 1 < 1) ∧
    deltaFun 0 1 = 1 / 2 ∧
    Monotone (fun s => deltaFun s 1) ∧
    Filter.Tendsto (fun s => deltaFun s 1) Filter.atTop (nhds 1) ∧
    Filter.Tendsto (fun s => deltaFun s 1) Filter.atBot (nhds 0)) :=
  ⟨by simp, by norm_num,
    switch_function_delta_smoothing ⟨1, 1, 1, 1, 1, 1, 1, 1, 1, 1, 1, 1, 1⟩
      [fun _ => 1] 1 0 (by simp) (by simp [switch_function]) (by simp [switch_function])
      (by norm_num)⟩

/-! Agreement between the per-sample algebra of `eom.py` and `switch_function`. -/

theorem BTL1_eq (e : EOM.Env) :
    BTL1 e.x = ![-EOM.t37 e, EOM.t28 e, EOM.t46 e] := by
  funext j
  fin_cases j <;>
    simp [BTL1, Bmat, lamVec, Matrix.mulVec, Matrix.dotProduct, Fin.sum_univ_succ,
      Matrix.cons_val_zero, Matrix.cons_val_succ, Matrix.head_cons,
      Matrix.transpose_apply, EOM.t37, EOM.t35, EOM.t36, EOM.t28, EOM.t21, EOM.t24,
      EOM.t27, EOM.t46, EOM.t30, EOM.t31, EOM.t32, EOM.t44, EOM.t45, EOM.t22, EOM.t23,
      EOM.t25, EOM.t26, EOM.t18, EOM.t17, EOM.t14, EOM.t12, EOM.t13, EOM.t11, EOM.t10,
      EOM.t8, EOM.t9, EOM.t4, EOM.t2, EOM.t3, EOM.t7, EOM.t29, EOM.t15, EOM.p, EOM.f,
      EOM.g, EOM.h, EOM.k, EOM.L, EOM.pco1, EOM.pco2, EOM.pco3, EOM.pco4, EOM.pco5,
      EOM.pco6] <;>
    ring

theorem norm3_BTL1 (e : EOM.Env) : norm3 (BTL1 e.x) = EOM.t54 e := by
  rw [BTL1_eq]
  have harg : (![-EOM.t37 e, EOM.t28 e, EOM.t46 e] : Fin 3 → ℝ) 0 ^ 2 +
      (![-EOM.t37 e, EOM.t28 e, EOM.t46 e] : Fin 3 → ℝ) 1 ^ 2 +
      (![-EOM.t37 e, EOM.t28 e, EOM.t46 e] : Fin 3 → ℝ) 2 ^ 2 = EOM.t48 e := by
    simp [EOM.t48, EOM.t34, EOM.t38, EOM.t47, EOM.t19, EOM.t20, EOM.t33, sq_abs]
    ring
  rw [norm3, harg, EOM.t54]

theorem S1_eq_t56 (e : EOM.Env) : S1 e.cfg e.x = EOM.t56 e := by
  rw [S1, norm3_BTL1, EOM.t56, EOM.t55, EOM.t6, EOM.pco7, EOM.c, EOM.si2can, EOM.m]
  ring

theorem delta1_eq_t60 (e : EOM.Env) : delta1 e.cfg e.x e.rho = EOM.t60 e := by
  rw [delta1, S1_eq_t56, EOM.t60, EOM.t59, EOM.t58, EOM.t57, EOM.t43,
    one_div_mul_eq_div]
  norm_num
  ring

/-- C1: for every augmented state `x` and `rho > 0`, the switching scalar `t56` and
throttle `t60` computed inside `eom_mee_twobodyJ2_minfuel` equal the `S[0]` and
`delta[0]` that `switch_function` returns on the one-row batch `[x]` with the same
`rho`; the per-sample costate-weighted control-influence vector of the switch function
is, component for component, `(-t37, t28, t46)` — the eom quantities up to the sign
convention absorbed by the norm — and its Euclidean norm equals the norm `t54` used by
the eom. -/
theorem eom_switch_function_agree (cfg : Config) (x : Fin 14 → ℝ) (rho : ℝ)
    (hrho : 0 < rho) :
    (switch_function cfg [x] rho).1 = [EOM.t56 ⟨cfg, x, rho⟩] ∧
    (switch_function cfg [x] rho).2.1 = [EOM.t60 ⟨cfg, x, rho⟩] ∧
    (switch_function cfg [x] rho).2.2 =
      [![-EOM.t37 ⟨cfg, x, rho⟩, EOM.t28 ⟨cfg, x, rho⟩, EOM.t46 ⟨cfg, x, rho⟩]] ∧
    norm3 (BTL1 x) = EOM.t54 ⟨cfg, x, rho⟩ := by
  refine ⟨?_, ?_, ?_, norm3_BTL1 ⟨cfg, x, rho⟩⟩
  · simp only [switch_function, List.map_cons, List.map_nil]
    rw [S1_eq_t56 ⟨cfg, x, rho⟩]
  · simp only [switch_function, List.map_cons, List.map_nil]
    rw [delta1_eq_t60 ⟨cfg, x, rho⟩]
  · simp only [switch_function, List.map_cons, List.map_nil]
    rw [BTL1_eq ⟨cfg, x, rho⟩]

/-- Witness for C1 at the all-ones configuration and state with `rho = 1`. -/
theorem eom_switch_function_agree_witness :
    (0 : ℝ) < 1 ∧
    ((switch_function ⟨1, 1, 1, 1, 1, 1, 1, 1, 1, 1, 1, 1, 1⟩ [fun _ => 1] 1).1 =
        [EOM.t56 ⟨⟨1, 1, 1, 1, 1, 1, 1, 1, 1, 1, 1, 1, 1⟩, fun _ => 1, 1⟩] ∧
      (switch_function ⟨1, 1, 1, 1, 1, 1, 1, 1, 1, 1, 1, 1, 1⟩ [fun _ => 1] 1).2.1 =
        [EOM.t60 ⟨⟨1, 1, 1, 1, 1, 1, 1, 1, 1, 1, 1, 1, 1⟩, fun _ => 1, 1⟩] ∧
      (switch_function ⟨1, 1, 1, 1, 1, 1, 1, 1, 1, 1, 1, 1, 1⟩ [fun _ => 1] 1).2.2 =
        [![-EOM.t37 ⟨⟨1, 1, 1, 1, 1, 1, 1, 1, 1, 1, 1, 1, 1⟩, fun _ => 1, 1⟩,
           EOM.t28 ⟨⟨1, 1, 1, 1, 1, 1, 1, 1, 1, 1, 1, 1, 1⟩, fun _ => 1, 1⟩,
           EOM.t46 ⟨⟨1, 1, 1, 1, 1, 1, 1, 1, 1, 1, 1, 1, 1⟩, fun _ => 1, 1⟩]] ∧
      norm3 (BTL1 (fun _ => 1)) =
        EOM.t54 ⟨⟨1, 1, 1, 1, 1, 1, 1, 1, 1, 1, 1, 1, 1⟩, fun _ => 1, 1⟩) :=
  ⟨by norm_num,
    eom_switch_function_agree ⟨1, 1, 1, 1, 1, 1, 1, 1, 1, 1, 1, 1, 1⟩
      (fun _ => 1) 1 (by norm_num)⟩

/-- C2: the eclipse flag has no influence on `eom_mee_twobodyJ2_minfuel`: the eclipse
model (eom.py lines 67-72) is commented out and line 73 fixes the thrust to `sc.Thr`
unconditionally, so the 14-element derivative vector with `eclipse = True` equals the
one with `eclipse = False` for every time, state and smoothing parameter. -/
theorem eom_eclipse_flag_no_influence (cfg : Config) (t : ℝ) (x : Fin 14 → ℝ)
    (rho : ℝ) :
    eom_mee_twobodyJ2_minfuel cfg t x rho true =
      eom_mee_twobodyJ2_minfuel cfg t x rho false := rfl

/-- C10: `thrust_angle` never returns a value: its first executed statement, the bare
tuple on line 205 of functions.py, reads nine local variables before any of them has
been assigned, so every call raises a `NameError` (`UnboundLocalError`) whatever the
batch, smoothing parameter, or eclipse flag. -/
theorem thrust_angle_always_raises (cfg : Config) (data : List (Fin 14 → ℝ))
    (rho : ℝ) (eclipse : Bool) :
    thrust_angle cfg data rho eclipse = Except.error PyErr.nameError := rfl

/-- C5 failing-input evidence: with eclipse modelling disabled, the embedded
`thrust_angle` at a concrete one-sample batch raises the line-205 `NameError` instead
of returning the available power, thrust magnitude and inertial thrust vector the
claim describes. -/
theorem thrust_angle_no_eclipse_raises :
    thrust_angle ⟨1, 1, 1, 1, 1, 1, 1, 1, 1, 1, 1, 1, 1⟩ [fun _ => 1] 1 false =
      Except.error PyErr.nameError := rfl

/-- C6 failing-input evidence: with eclipse modelling enabled, the embedded
`thrust_angle` at a concrete one-sample batch raises the line-205 `NameError`, so the
per-sample eclipse branch the claim describes is never reached (and had line 205 been
absent, line 234 would test `r[0] < 0`, the first sample's whole position vector
rather than the current sample's x-component). -/
theorem thrust_angle_eclipse_raises :
    thrust_angle ⟨1, 1, 1, 1, 1, 1, 1, 1, 1, 1, 1, 1, 1⟩ [fun _ => 1] 1 true =
      Except.error PyErr.nameError := rfl

/-- C4: for every sample of every batch with nonzero mass, `switch_function` returns
the switching scalar `S[i] = c*si2can*‖Bᵀλ‖/m[i] + λm[i] − 1`, where `B` is the 7×3
control-influence matrix built from the sample's equinoctial elements with an all-zero
seventh row, and the returned `BTL[i]` is exactly `Bᵀλ` over the seven costates. -/
theorem switch_function_S_formula (cfg : Config) (data : List (Fin 14 → ℝ)) (rho : ℝ)
    (i : ℕ) (hd : i < data.length)
    (h1 : i < (switch_function cfg data rho).1.length)
    (h3 : i < (switch_function cfg data rho).2.2.length)
    (hm : data.get ⟨i, hd⟩ 6 ≠ 0) :
    (switch_function cfg data rho).1.get ⟨i, h1⟩ =
      cfg.c * cfg.si2can *
          norm3 ((Bmat (data.get ⟨i, hd⟩)).transpose.mulVec (lamVec (data.get ⟨i, hd⟩))) /
          data.get ⟨i, hd⟩ 6 + data.get ⟨i, hd⟩ 13 - 1 ∧
    (∀ j : Fin 3, Bmat (data.get ⟨i, hd⟩) 6 j = 0) ∧
    (switch_function cfg data rho).2.2.get ⟨i, h3⟩ =
      (Bmat (data.get ⟨i, hd⟩)).transpose.mulVec (lamVec (data.get ⟨i, hd⟩)) := by
  refine ⟨?_, ?_, ?_⟩
  · simp [switch_function, S1, BTL1]
  · intro j
    fin_cases j <;> rfl
  · simp [switch_function, BTL1]

/-- Witness for C4 at the all-ones sample. -/
theorem switch_function_S_formula_witness :
    ((fun _ => (1 : ℝ)) : Fin 14 → ℝ) 6 ≠ 0 ∧
    ((switch_function ⟨1, 1, 1, 1, 1, 1, 1, 1, 1, 1, 1, 1, 1⟩ [fun _ => 1] 1).1.get
        ⟨0, by simp [switch_function]⟩ =
      (1 : ℝ) * 1 * norm3 ((Bmat fun _ => 1).transpose.mulVec (lamVec fun _ => 1)) / 1 +
        1 - 1 ∧
    (∀ j : Fin 3, Bmat (fun _ => (1 : ℝ)) 6 j = 0) ∧
    (switch_function ⟨1, 1, 1, 1, 1, 1, 1, 1, 1, 1, 1, 1, 1⟩ [fun _ => 1] 1).2.2.get
        ⟨0, by simp [switch_function]⟩ =
      (Bmat fun _ => 1).transpose.mulVec (lamVec fun _ => 1)) :=
  ⟨by norm_num,
    switch_function_S_formula ⟨1, 1, 1, 1, 1, 1, 1, 1, 1, 1, 1, 1, 1⟩ [fun _ => 1] 1 0
      (by simp) (by simp [switch_function]) (by simp [switch_function]) (by norm_num)⟩

/-- C7: with all seven costates zero, thrust magnitude zero, and `J2` set to zero, the
first six components of the derivative returned by `eom_mee_twobodyJ2_minfuel` reduce
to the unperturbed two-body Keplerian variational equations in MEE (in the canonical
units of the source, `mu = 1`): the first five vanish and
`dL/dt = sqrt(mu/p^3)*(1 + f*cos L + g*sin L)^2`. -/
theorem eom_keplerian_reduction (cfg : Config) (t : ℝ) (x : Fin 14 → ℝ) (rho : ℝ)
    (ecl : Bool) (hco : ∀ j : Fin 14, 7 ≤ (j : ℕ) → x j = 0)
    (hThr : cfg.Thr = 0) (hJ2 : cfg.J2 = 0) (hp : 0 < x 0) (hmu : cfg.mu = 1) :
    eom_mee_twobodyJ2_minfuel cfg t x rho ecl 0 =
        keplerianMEE cfg.mu (x 0) (x 1) (x 2) (x 5) 0 ∧
    eom_mee_twobodyJ2_minfuel cfg t x rho ecl 1 =
        keplerianMEE cfg.mu (x 0) (x 1) (x 2) (x 5) 1 ∧
    eom_mee_twobodyJ2_minfuel cfg t x rho ecl 2 =
        keplerianMEE cfg.mu (x 0) (x 1) (x 2) (x 5) 2 ∧
    eom_mee_twobodyJ2_minfuel cfg t x rho ecl 3 =
        keplerianMEE cfg.mu (x 0) (x 1) (x 2) (x 5) 3 ∧
    eom_mee_twobodyJ2_minfuel cfg t x rho ecl 4 =
        keplerianMEE cfg.mu (x 0) (x 1) (x 2) (x 5) 4 ∧
    eom_mee_twobodyJ2_minfuel cfg t x rho ecl 5 =
        keplerianMEE cfg.mu (x 0) (x 1) (x 2) (x 5) 5 := by
  have h67 : EOM.t67 ⟨cfg, x, rho⟩ = 0 := by
    simp [EOM.t67, EOM.t66, EOM.t68, EOM.Thr, EOM.J2, hThr, hJ2]
  have h64 : EOM.t64 ⟨cfg, x, rho⟩ = 0 := by
    simp [EOM.t64, EOM.t53, EOM.t63, EOM.Thr, EOM.J2, hThr, hJ2]
  have h62 : EOM.t62 ⟨cfg, x, rho⟩ = 0 := by
    simp [EOM.t62, EOM.Thr, hThr]
  refine ⟨?_, ?_, ?_, ?_, ?_, ?_⟩
  · show EOM.dxdt0 ⟨cfg, x, rho⟩ = (0 : ℝ)
    simp [EOM.dxdt0, EOM.t53, EOM.J2, EOM.Thr, hJ2, hThr]
  · show EOM.dxdt1 ⟨cfg, x, rho⟩ = (0 : ℝ)
    simp [EOM.dxdt1, h62, h64, h67, EOM.J2, hJ2]
  · show EOM.dxdt2 ⟨cfg, x, rho⟩ = (0 : ℝ)
    simp [EOM.dxdt2, h62, h64, h67, EOM.J2, hJ2]
  · show EOM.dxdt3 ⟨cfg, x, rho⟩ = (0 : ℝ)
    simp [EOM.dxdt3, h67]
  · show EOM.dxdt4 ⟨cfg, x, rho⟩ = (0 : ℝ)
    simp [EOM.dxdt4, h67]
  · show EOM.dxdt5 ⟨cfg, x, rho⟩ =
      Real.sqrt (cfg.mu / x 0 ^ 3) * (1 + x 1 * Real.cos (x 5) + x 2 * Real.sin (x 5)) ^ 2
    have hsq : Real.sqrt (x 0 ^ 3) = x 0 * Real.sqrt (x 0) := by
      rw [pow_succ, Real.sqrt_mul (by positivity), Real.sqrt_sq hp.le]
    have hs : Real.sqrt (cfg.mu / x 0 ^ 3) = 1 / (x 0 * Real.sqrt (x 0)) := by
      rw [hmu, one_div, Real.sqrt_inv, hsq, one_div]
    rw [hs, EOM.dxdt5, h67]
    simp only [mul_zero, sub_zero]
    rw [EOM.t5, EOM.t79, EOM.t4, EOM.t8, EOM.t9, EOM.t2, EOM.t3, EOM.p, EOM.f, EOM.g,
      EOM.L]
    ring

/-- Witness for C7 at `cfgKepler` and `xKepler` with `rho = 1`. -/
theorem eom_keplerian_reduction_witness :
    (∀ j : Fin 14, 7 ≤ (j : ℕ) → xKepler j = 0) ∧
    cfgKepler.Thr = 0 ∧ cfgKepler.J2 = 0 ∧ 0 < xKepler 0 ∧ cfgKepler.mu = 1 ∧
    (eom_mee_twobodyJ2_minfuel cfgKepler 0 xKepler 1 false 0 =
        keplerianMEE cfgKepler.mu (xKepler 0) (xKepler 1) (xKepler 2) (xKepler 5) 0 ∧
      eom_mee_twobodyJ2_minfuel cfgKepler 0 xKepler 1 false 1 =
        keplerianMEE cfgKepler.mu (xKepler 0) (xKepler 1) (xKepler 2) (xKepler 5) 1 ∧
      eom_mee_twobodyJ2_minfuel cfgKepler 0 xKepler 1 false 2 =
        keplerianMEE cfgKepler.mu (xKepler 0) (xKepler 1) (xKepler 2) (xKepler 5) 2 ∧
      eom_mee_twobodyJ2_minfuel cfgKepler 0 xKepler 1 false 3 =
        keplerianMEE cfgKepler.mu (xKepler 0) (xKepler 1) (xKepler 2) (xKepler 5) 3 ∧
      eom_mee_twobodyJ2_minfuel cfgKepler 0 xKepler 1 false 4 =
        keplerianMEE cfgKepler.mu (xKepler 0) (xKepler 1) (xKepler 2) (xKepler 5) 4 ∧
      eom_mee_twobodyJ2_minfuel cfgKepler 0 xKepler 1 false 5 =
        keplerianMEE cfgKepler.mu (xKepler 0) (xKepler 1) (xKepler 2) (xKepler 5) 5) :=
  ⟨fun j hj => by simp only [xKepler]; rw [if_neg (by omega)],
    rfl, rfl, by norm_num [xKepler], rfl,
    eom_keplerian_reduction cfgKepler 0 xKepler 1 false
      (fun j hj => by simp only [xKepler]; rw [if_neg (by omega)])
      rfl rfl (by norm_num [xKepler]) rfl⟩

/-! Orthonormality of the LVLH rotation. -/

theorem norm3_sq (a : Fin 3 → ℝ) : norm3 a ^ 2 = a 0 ^ 2 + a 1 ^ 2 + a 2 ^ 2 :=
  Real.sq_sqrt (by positivity)

theorem norm3_ne_zero (a : Fin 3 → ℝ) (ha : a ≠ 0) : norm3 a ≠ 0 := by
  have hcomp : a 0 ≠ 0 ∨ a 1 ≠ 0 ∨ a 2 ≠ 0 := by
    by_contra hc
    push_neg at hc
    exact ha (funext fun i => by fin_cases i <;> simp [hc.1, hc.2.1, hc.2.2])
  have hsum : 0 < a 0 ^ 2 + a 1 ^ 2 + a 2 ^ 2 := by
    rcases hcomp with hcp | hcp | hcp <;>
      nlinarith [sq_nonneg (a 0), sq_nonneg (a 1), sq_nonneg (a 2),
        pow_two_pos_of_ne_zero hcp]
  exact (Real.sqrt_pos.mpr hsum).ne'

set_option maxHeartbeats 1000000 in
theorem gram_aux (r0 r1 r2 h0 h1 h2 a b : ℝ) (hA : a ≠ 0) (hB : b ≠ 0)
    (ha2 : a ^ 2 = r0 ^ 2 + r1 ^ 2 + r2 ^ 2)
    (hb2 : b ^ 2 = h0 ^ 2 + h1 ^ 2 + h2 ^ 2)
    (hdot : r0 * h0 + r1 * h1 + r2 * h2 = 0) :
    (Matrix.of ![![r0 / a, r1 / a, r2 / a],
        ![h1 / b * (r2 / a) - h2 / b * (r1 / a),
          h2 / b * (r0 / a) - h0 / b * (r2 / a),
          h0 / b * (r1 / a) - h1 / b * (r0 / a)],
        ![h0 / b, h1 / b, h2 / b]] *
      (Matrix.of ![![r0 / a, r1 / a, r2 / a],
        ![h1 / b * (r2 / a) - h2 / b * (r1 / a),
          h2 / b * (r0 / a) - h0 / b * (r2 / a),
          h0 / b * (r1 / a) - h1 / b * (r0 / a)],
        ![h0 / b, h1 / b, h2 / b]]).transpose = 1) ∧
    (Matrix.of ![![r0 / a, r1 / a, r2 / a],
        ![h1 / b * (r2 / a) - h2 / b * (r1 / a),
          h2 / b * (r0 / a) - h0 / b * (r2 / a),
          h0 / b * (r1 / a) - h1 / b * (r0 / a)],
        ![h0 / b, h1 / b, h2 / b]]).det = 1 := by
  constructor
  · ext i j
    rw [Matrix.mul_apply]
    fin_cases i <;> fin_cases j <;>
      simp [Fin.sum_univ_three, Matrix.transpose_apply, Matrix.one_apply] <;>
      field_simp
    · linear_combination -ha2
    · ring
    · linear_combination hdot
    · ring
    · linear_combination (-(h0 ^ 2 + h1 ^ 2 + h2 ^ 2)) * ha2 - a ^ 2 * hb2 -
        (r0 * h0 + r1 * h1 + r2 * h2) * hdot
    · ring
    · linear_combination hdot
    · ring
    · linear_combination -hb2
  · rw [Matrix.det_fin_three]
    simp only [Matrix.of_apply, Matrix.cons_val_zero, Matrix.cons_val_one,
      Matrix.head_cons, Matrix.cons_val_two, Matrix.tail_cons]
    field_simp
    linear_combination (-(h0 ^ 2 + h1 ^ 2 + h2 ^ 2)) * ha2 - a ^ 2 * hb2 -
      (r0 * h0 + r1 * h1 + r2 * h2) * hdot

/-- C8: for every non-degenerate pair `(r, v)` with `r ≠ 0` and `r × v ≠ 0`, the 3×3
matrix returned by `inertial2radial` is orthonormal with determinant `+1`
(`Mᵀ·M = identity`), its first row is `r/‖r‖`, its third row is `(r×v)/‖r×v‖`, and its
second row is the cross product of the third row with the first row. -/
theorem inertial2radial_orthonormal (r v : Fin 3 → ℝ) (hr : r ≠ 0)
    (hh : cross3 r v ≠ 0) :
    (inertial2radial r v).transpose * inertial2radial r v = 1 ∧
    (inertial2radial r v).det = 1 ∧
    (∀ j, inertial2radial r v 0 j = r j / norm3 r) ∧
    (∀ j, inertial2radial r v 2 j = cross3 r v j / norm3 (cross3 r v)) ∧
    (∀ j, inertial2radial r v 1 j =
      cross3 (fun i => cross3 r v i / norm3 (cross3 r v)) (fun i => r i / norm3 r) j) := by
  have hA : norm3 r ≠ 0 := norm3_ne_zero r hr
  have hB : norm3 (cross3 r v) ≠ 0 := norm3_ne_zero _ hh
  have hdot : r 0 * cross3 r v 0 + r 1 * cross3 r v 1 + r 2 * cross3 r v 2 = 0 := by
    simp [cross3]
    ring
  have hM : inertial2radial r v = Matrix.of
      ![![r 0 / norm3 r, r 1 / norm3 r, r 2 / norm3 r],
        ![cross3 r v 1 / norm3 (cross3 r v) * (r 2 / norm3 r) -
            cross3 r v 2 / norm3 (cross3 r v) * (r 1 / norm3 r),
          cross3 r v 2 / norm3 (cross3 r v) * (r 0 / norm3 r) -
            cross3 r v 0 / norm3 (cross3 r v) * (r 2 / norm3 r),
          cross3 r v 0 / norm3 (cross3 r v) * (r 1 / norm3 r) -
            cross3 r v 1 / norm3 (cross3 r v) * (r 0 / norm3 r)],
        ![cross3 r v 0 / norm3 (cross3 r v), cross3 r v 1 / norm3 (cross3 r v),
          cross3 r v 2 / norm3 (cross3 r v)]] := by
    ext i j
    fin_cases i <;> fin_cases j <;> simp [inertial2radial, cross3]
  obtain ⟨hgram, hdet⟩ := gram_aux (r 0) (r 1) (r 2) (cross3 r v 0) (cross3 r v 1)
    (cross3 r v 2) (norm3 r) (norm3 (cross3 r v)) hA hB (norm3_sq r)
    (norm3_sq (cross3 r v)) hdot
  refine ⟨?_, ?_, ?_, ?_, ?_⟩
  · rw [hM]
    exact Matrix.mul_eq_one_comm.mp hgram
  · rw [hM]
    exact hdet
  · intro j
    fin_cases j <;> simp [inertial2radial]
  · intro j
    fin_cases j <;> simp [inertial2radial]
  · intro j
    fin_cases j <;> simp [inertial2radial, cross3]

/-- Witness for C8 at `r = (1,0,0)`, `v = (0,1,0)`. -/
theorem inertial2radial_orthonormal_witness :
    (![1, 0, 0] : Fin 3 → ℝ) ≠ 0 ∧ cross3 ![1, 0, 0] ![0, 1, 0] ≠ 0 ∧
    ((inertial2radial ![1, 0, 0] ![0, 1, 0]).transpose *
        inertial2radial ![1, 0, 0] ![0, 1, 0] = 1 ∧
      (inertial2radial ![1, 0, 0] ![0, 1, 0]).det = 1 ∧
      (∀ j, inertial2radial ![1, 0, 0] ![0, 1, 0] 0 j =
        (![1, 0, 0] : Fin 3 → ℝ) j / norm3 ![1, 0, 0]) ∧
      (∀ j, inertial2radial ![1, 0, 0] ![0, 1, 0] 2 j =
        cross3 ![1, 0, 0] ![0, 1, 0] j / norm3 (cross3 ![1, 0, 0] ![0, 1, 0])) ∧
      (∀ j, inertial2radial ![1, 0, 0] ![0, 1, 0] 1 j =
        cross3 (fun i => cross3 ![1, 0, 0] ![0, 1, 0] i /
            norm3 (cross3 ![1, 0, 0] ![0, 1, 0]))
          (fun i => (![1, 0, 0] : Fin 3 → ℝ) i / norm3 ![1, 0, 0]) j)) :=
  ⟨fun hcon => one_ne_zero (congrFun hcon 0),
    fun hcon => by have hcon2 := congrFun hcon 2; norm_num [cross3] at hcon2,
    inertial2radial_orthonormal ![1, 0, 0] ![0, 1, 0]
      (fun hcon => one_ne_zero (congrFun hcon 0))
      (fun hcon => by have hcon2 := congrFun hcon 2; norm_num [cross3] at hcon2)⟩

/-! Guarded evaluation of the switch function. -/

theorem cdiv_ok (a b : ℝ) (hb : b ≠ 0) : cdiv a b = Except.ok (a / b) := by
  rw [cdiv, if_neg hb]

theorem csqrt_ok (a : ℝ) (ha : 0 ≤ a) : csqrt a = Except.ok (Real.sqrt a) := by
  rw [csqrt, if_neg (not_lt.mpr ha)]

theorem csqrt_sum_sq (a b c : ℝ) :
    csqrt (a ^ 2 + b ^ 2 + c ^ 2) = Except.ok (Real.sqrt (a ^ 2 + b ^ 2 + c ^ 2)) :=
  csqrt_ok _ (by positivity)

theorem switch1_checked_ok (cfg : Config) (x : Fin 14 → ℝ) (rho : ℝ)
    (hp : 0 ≤ x 0) (hm : x 6 ≠ 0)
    (hq : 1 + x 1 * Real.cos (x 5) + x 2 * Real.sin (x 5) ≠ 0) (hrho : rho ≠ 0) :
    switch1_checked cfg x rho = Except.ok (S1 cfg x, delta1 cfg x rho, BTL1 x) := by
  have e1 : ∀ a : ℝ, cdiv a (1 + x 1 * Real.cos (x 5) + x 2 * Real.sin (x 5)) =
      Except.ok (a / (1 + x 1 * Real.cos (x 5) + x 2 * Real.sin (x 5))) :=
    fun a => cdiv_ok a _ hq
  have e2 : ∀ a : ℝ, cdiv a (x 6) = Except.ok (a / x 6) := fun a => cdiv_ok a _ hm
  have e3 : ∀ a : ℝ, cdiv a rho = Except.ok (a / rho) := fun a => cdiv_ok a _ hrho
  have e4 : ∀ a : ℝ, cdiv a 2 = Except.ok (a / 2) :=
    fun a => cdiv_ok a 2 (by norm_num)
  have e5 : csqrt (x 0) = Except.ok (Real.sqrt (x 0)) := csqrt_ok _ hp
  simp only [switch1_checked, e1, e2, e3, e4, e5, csqrt_sum_sq, bind, Except.bind,
    pure, Except.pure]
  simp [S1, delta1, BTL1, Bmat, lamVec, norm3]

/-- C9: on a batch in which every sample has `p ≥ 0`, `m ≠ 0` and
`1 + f*cos L + g*sin L ≠ 0`, and for `rho ≠ 0`, every division and square root
performed by `switch_function` has a valid operand: the guarded evaluation
`switch_function_checked` never takes an error branch and returns exactly the
per-sample `(S, delta, BTL)` triples of the unguarded embedding. -/
theorem switch_function_checked_never_errs (cfg : Config) (data : List (Fin 14 → ℝ))
    (rho : ℝ) (hrho : rho ≠ 0)
    (hall : ∀ x ∈ data, 0 ≤ x 0 ∧ x 6 ≠ 0 ∧
      1 + x 1 * Real.cos (x 5) + x 2 * Real.sin (x 5) ≠ 0) :
    switch_function_checked cfg data rho =
      Except.ok (data.map fun x => (S1 cfg x, delta1 cfg x rho, BTL1 x)) := by
  induction data with
  | nil => rfl
  | cons y ys ih =>
      have hy := hall y (by simp)
      have h1 := switch1_checked_ok cfg y rho hy.1 hy.2.1 hy.2.2 hrho
      have h2 := ih fun x hx => hall x (by simp [hx])
      simp only [switch_function_checked] at h2 ⊢
      rw [List.mapM_cons, h1, h2]
      rfl

/-- Witness for C9 at the one-sample batch `[xSafe]` with `rho = 1`. -/
theorem switch_function_checked_never_errs_witness :
    (1 : ℝ) ≠ 0 ∧
    (∀ x ∈ [xSafe], 0 ≤ x 0 ∧ x 6 ≠ 0 ∧
      1 + x 1 * Real.cos (x 5) + x 2 * Real.sin (x 5) ≠ 0) ∧
    switch_function_checked ⟨1, 1, 1, 1, 1, 1, 1, 1, 1, 1, 1, 1, 1⟩ [xSafe] 1 =
      Except.ok ([xSafe].map fun x =>
        (S1 ⟨1, 1, 1, 1, 1, 1, 1, 1, 1, 1, 1, 1, 1⟩ x,
         delta1 ⟨1, 1, 1, 1, 1, 1, 1, 1, 1, 1, 1, 1, 1⟩ x 1, BTL1 x)) :=
  ⟨by norm_num,
    fun x hx => by
      have hx' : x = xSafe := by simpa using hx
      subst hx'
      refine ⟨le_of_eq (show (0 : ℝ) = xSafe 0 from rfl), ?_, ?_⟩
      · rw [show xSafe 6 = (1 : ℝ) from rfl]
        norm_num
      · rw [show xSafe 1 = (0 : ℝ) from rfl, show xSafe 2 = (0 : ℝ) from rfl]
        norm_num,
    switch_function_checked_never_errs ⟨1, 1, 1, 1, 1, 1, 1, 1, 1, 1, 1, 1, 1⟩ [xSafe] 1
      (by norm_num)
      (fun x hx => by
        have hx' : x = xSafe := by simpa using hx
        subst hx'
        refine ⟨le_of_eq (show (0 : ℝ) = xSafe 0 from rfl), ?_, ?_⟩
        · rw [show xSafe 6 = (1 : ℝ) from rfl]
          norm_num
        · rw [show xSafe 1 = (0 : ℝ) from rfl, show xSafe 2 = (0 : ℝ) from rfl]
          norm_num)⟩

end STR
